import Mathlib

/-!
Verification development for the channel-report generator.

The embedding models the repository's data and operations:
dates are integers (day counts, ordered as calendar dates are),
a post is a record of date, text, optional view count and reaction list,
and Python's stable `sorted(key, reverse)` is modelled by a stable sort
with the comparison taken from the key (flipped for `reverse=True`,
which in Python keeps ties in original order).
-/

namespace Channel2Pdf

/-- A channel post as produced by `fetch_posts` / `get_demo_posts`:
`{"date": date, "text": str, "views": int | None, "reactions": [{"emoji",..,"count"..}]}`. -/
structure Post where
  date : Int
  text : String
  views : Option Int
  reactions : List (String × Int)
deriving Repr, DecidableEq, Inhabited

/-- Sum of reaction counts, `sum(r['count'] for r in post['reactions'])` in `sort_posts`. -/
def get_reactions_sum (p : Post) : Int :=
  (p.reactions.map (fun r => r.2)).sum

/-- View count with absence as 0: `post['views'] if post['views'] is not None else 0`. -/
def get_views (p : Post) : Int :=
  match p.views with
  | some v => v
  | none => 0

/-- Python's `sorted(l, key=key, reverse=reverse)`: a stable sort; with
`reverse=True` the key comparison is flipped but ties keep original order.
A stable sort with a total transitive comparison is unique, so any stable
sorting algorithm models it; insertion sort is used here. -/
def pySorted {α : Type} (key : α → Int) (reverse : Bool) (l : List α) : List α :=
  if reverse then l.insertionSort (fun a b => key b ≤ key a)
  else l.insertionSort (fun a b => key a ≤ key b)

/-- The sort key used by `sort_posts` for each recognised `sort_type`. -/
def sortKey (sort_type : String) : Post → Int :=
  if sort_type = "date" then fun x => x.date
  else if sort_type = "reactions" then get_reactions_sum
  else get_views

/-- Embedding of `fetch_posts.sort_posts`: dispatch on `sort_type`, sort with the
corresponding key and `reverse = not ascending`; unknown type raises `ValueError`. -/
def sort_posts (posts : List Post) (sort_type : String) (ascending : Bool) :
    Except String (List Post) :=
  if sort_type = "date" then
    .ok (pySorted (fun x => x.date) (!ascending) posts)
  else if sort_type = "reactions" then
    .ok (pySorted get_reactions_sum (!ascending) posts)
  else if sort_type = "views" then
    .ok (pySorted get_views (!ascending) posts)
  else
    .error ("Неизвестный тип сортировки: " ++ sort_type)

/-- The fixed catalog of 7 demo posts built by `get_demo_posts` before filtering:
post k (k = 0..6) is dated `date_from + min(k, days_range)` where
`days_range = max(date_to - date_from, 0)`. -/
def demo_catalog (date_from date_to : Int) : List Post :=
  let days_range := max (date_to - date_from) 0
  [ { date := date_from + min 0 days_range,
      text := "Первый демо-пост! Короткий текст с реакциями и просмотрами.",
      views := some 1543,
      reactions := [("❤️", 120), ("👍", 85), ("🔥", 42)] },
    { date := date_from + min 1 days_range,
      text := "Это второй демо-пост с более длинным текстом.\n\nЗдесь несколько абзацев, чтобы продемонстрировать, как PDF-генератор обрабатывает многострочный контент.\n\nВ этом посте также есть реакции и просмотры. Это помогает протестировать форматирование шапки поста в PDF-документе.\n\nТретий абзац добавлен для полноты картины.",
      views := some 2847,
      reactions := [("😂", 230), ("❤️", 156), ("🎉", 94)] },
    { date := date_from + min 2 days_range,
      text := "Третий пост — без реакций, но с просмотрами. Проверяем, что блок реакций не отображается.",
      views := some 987,
      reactions := [] },
    { date := date_from + min 3 days_range,
      text := "Четвёртый пост: есть реакции, но нет просмотров. Проверяем корректность отображения.",
      views := none,
      reactions := [("👏", 67), ("💯", 45)] },
    { date := date_from + min 4 days_range,
      text := "Пятый пост — минималистичный. Ни реакций, ни просмотров. Только дата и текст.",
      views := none,
      reactions := [] },
    { date := date_from + min 5 days_range,
      text := "Шестой пост с огромным количеством реакций!\n\nЭтот пост особенно популярен по реакциям, но просмотров у него немного.\n\nИспользуется для тестирования сортировки по реакциям.",
      views := some 543,
      reactions := [("🔥", 890), ("❤️", 723), ("😍", 612)] },
    { date := date_from + min 6 days_range,
      text := "Седьмой пост — самый длинный из всех!\n\nЭтот текст специально создан для проверки того, как PDF-генератор справляется с большими объёмами текста.\n\nАбзац первый: здесь мы говорим о важности тестирования различных edge cases при разработке программного обеспечения.\n\nАбзац второй: особенно важно проверять, как система обрабатывает граничные случаи — например, очень длинные тексты, отсутствие данных, или необычные комбинации параметров.\n\nАбзац третий: в данном случае мы тестируем PDF-генератор, который должен корректно отображать длинный многострочный текст с сохранением всех переносов строк и форматирования.\n\nАбзац четвёртый: также важно убедиться, что шапка поста (дата, реакции, просмотры) корректно отображается даже для длинных постов.\n\nФинальный абзац: если вы видите этот текст в PDF-файле с правильным форматированием — всё работает отлично!",
      views := some 1876,
      reactions := [("📚", 234), ("👍", 187), ("🤔", 156)] } ]

/-- Embedding of `fetch_posts.get_demo_posts`: build the 7-post catalog, then keep
the posts whose date lies in `[date_from, date_to]`. -/
def get_demo_posts (date_from date_to : Int) : List Post :=
  (demo_catalog date_from date_to).filter
    (fun p => decide (date_from ≤ p.date) && decide (p.date ≤ date_to))

/-- Python's `str.strip()` (ASCII whitespace, which covers the inputs here),
used by the orchestrator's blank-channel check `not channel.strip()`. -/
def pyStrip (s : String) : String :=
  String.mk (((s.toList.dropWhile (fun c => c = ' ' || c = '\t' || c = '\n' ||
    c = '\r' || c = '\x0b' || c = '\x0c')).reverse.dropWhile
      (fun c => c = ' ' || c = '\t' || c = '\n' || c = '\r' || c = '\x0b' ||
        c = '\x0c')).reverse)

/-- Error taxonomy of `core_service.generate_report`: `ValueError` for bad
parameters and the `ReportGenerationError` hierarchy for pipeline failures. -/
inductive GenError where
  | invalidParameter (msg : String)
  | channelNotFound (msg : String)
  | noPostsFound (msg : String)
  | telegramConnection (msg : String)
  | reportGeneration (msg : String)
deriving Repr, DecidableEq

/-- Observable filesystem / network operations performed by `generate_report`,
in order: `connect` is recorded only for a successfully acquired client,
`connectFailed` for a failed `get_client()` attempt, `writeFile` for the
`create_pdf` call that writes the document file. -/
inductive Effect where
  | mkdirOutput (dir : String)
  | connect
  | connectFailed
  | fetch (channel : String) (date_from date_to : Int)
  | disconnect
  | writeFile (path : String)
deriving Repr, DecidableEq

/-- Configuration state read by `core_service.is_demo_mode`. -/
structure Config where
  DEMO_MODE : Bool
  API_ID : Option Int
  API_HASH : Option String
deriving Repr, DecidableEq

/-- Embedding of `core_service.is_demo_mode`: demo when the flag is set or the
API credentials are absent/blank. -/
def is_demo_mode (c : Config) : Bool :=
  if c.DEMO_MODE then true
  else if c.API_ID = none ∨ c.API_ID = some 0 then true
  else if c.API_HASH = none ∨ c.API_HASH = some "" then true
  else false

/-- Outcome of the `fetch_posts` call against the live message source:
success with a post list, a `ValueError` (channel unresolvable), or any other
exception. -/
inductive FetchOutcome where
  | ok (posts : List Post)
  | valueError (msg : String)
  | failure (msg : String)
deriving Repr, DecidableEq

/-- The behaviour of the external collaborators (Telegram client, PDF renderer)
during one call, as seen by `generate_report`. -/
structure LiveEnv where
  connectOk : Bool
  connectErrMsg : String
  fetchOutcome : FetchOutcome
  createPdfOk : Bool
  createPdfErrMsg : String
deriving Repr, DecidableEq

/-- Date rendering used in f-strings; dates are modelled as integers and
rendered with `toString`. -/
def dateStr (d : Int) : String := toString d

/-- Filename derivation in `generate_report`: when no name is given (or it is
empty), build `{clean_channel}_{date_from}_{date_to}.pdf` with `@` removed and
path separators replaced; then ensure a `.pdf` suffix. -/
def resolve_filename (filename : Option String) (channel : String)
    (date_from date_to : Int) : String :=
  let f :=
    match filename with
    | none => ""
    | some s => s
  let f :=
    if f = "" then
      let clean_channel := ((channel.replace "@" "").replace "/" "_").replace "\\" "_"
      clean_channel ++ "_" ++ dateStr date_from ++ "_" ++ dateStr date_to ++ ".pdf"
    else f
  if f.endsWith ".pdf" then f else f ++ ".pdf"

/-- The tail of `generate_report` shared by demo and live mode: fail with
`NoPostsFoundError` on an empty post list, sort (wrapping sort errors), then
call `create_pdf` (recording the file write and wrapping renderer errors). -/
def finish_report (env : LiveEnv) (date_from date_to : Int) (sort_type : String)
    (ascending : Bool) (pdf_path : String) (posts : List Post)
    (eff : List Effect) : Except GenError String × List Effect :=
  if posts = [] then
    (.error (.noPostsFound ("Постов за период с " ++ dateStr date_from ++ " по "
      ++ dateStr date_to ++ " не найдено")), eff)
  else
    match sort_posts posts sort_type ascending with
    | .error m => (.error (.reportGeneration ("Ошибка сортировки постов: " ++ m)), eff)
    | .ok _ =>
      if env.createPdfOk then
        (.ok pdf_path, eff ++ [Effect.writeFile pdf_path])
      else
        (.error (.reportGeneration ("Ошибка создания PDF: " ++ env.createPdfErrMsg)),
          eff ++ [Effect.writeFile pdf_path])

/-- Embedding of `core_service.generate_report` as a function from the
configuration, the external collaborators' behaviour and the request to the
result (path or error) paired with the ordered trace of observable effects.
Validation happens before any effect; the output directory is created next;
live mode records connect / fetch / disconnect effects (two disconnects on the
fetch-error paths, mirroring the source's except-handler plus finally). -/
def generate_report (cfg : Config) (env : LiveEnv) (channel : String)
    (date_from date_to : Int) (sort_type : String) (ascending : Bool)
    (filename : Option String) (output_dir : String) :
    Except GenError String × List Effect :=
  if pyStrip channel = "" then
    (.error (.invalidParameter "Канал не может быть пустым"), [])
  else if date_to < date_from then
    (.error (.invalidParameter "Дата окончания не может быть раньше даты начала"), [])
  else if ¬(sort_type = "date" ∨ sort_type = "reactions" ∨ sort_type = "views") then
    (.error (.invalidParameter ("Неверный тип сортировки: " ++ sort_type
      ++ ". Допустимые значения: date, reactions, views")), [])
  else
    let pdf_path := output_dir ++ "/" ++ resolve_filename filename channel date_from date_to
    let eff := [Effect.mkdirOutput output_dir]
    if is_demo_mode cfg then
      finish_report env date_from date_to sort_type ascending pdf_path
        (get_demo_posts date_from date_to) eff
    else if env.connectOk = false then
      (.error (.telegramConnection ("Не удалось подключиться к Telegram: "
        ++ env.connectErrMsg)), eff ++ [Effect.connectFailed])
    else
      match env.fetchOutcome with
      | .ok posts =>
        finish_report env date_from date_to sort_type ascending pdf_path posts
          (eff ++ [Effect.connect, Effect.fetch channel date_from date_to, Effect.disconnect])
      | .valueError m =>
        (.error (.channelNotFound m),
          eff ++ [Effect.connect, Effect.fetch channel date_from date_to,
            Effect.disconnect, Effect.disconnect])
      | .failure m =>
        (.error (.reportGeneration ("Ошибка получения постов: " ++ m)),
          eff ++ [Effect.connect, Effect.fetch channel date_from date_to,
            Effect.disconnect, Effect.disconnect])

/-- True on the document-file write effect. -/
def isWrite : Effect → Bool
  | .writeFile _ => true
  | _ => false

/-- The effects performed strictly before the first document-file write
(the whole trace when nothing is written). -/
def beforeFirstWrite (tr : List Effect) : List Effect :=
  tr.takeWhile (fun e => !isWrite e)

/-- Substring containment, Python's `pat in s`, over character lists. -/
def hasSubstr (pat : List Char) : List Char → Bool
  | [] => pat.isEmpty
  | c :: cs => pat.isPrefixOf (c :: cs) || hasSubstr pat cs

/-- Filesystem facts consulted by `download_file` about the requested name:
whether `GENERATED_DIR / filename` exists, is a regular file, and whether its
resolved path stays inside the resolved output directory
(`resolve().relative_to(...)` succeeding). -/
structure FsView where
  existsFile : Bool
  isFile : Bool
  resolvedInside : Bool
deriving Repr, DecidableEq

/-- Responses of `GET /files/{filename}`: 403, 404, or a `FileResponse`
carrying the served path and media type. -/
inductive HttpResponse where
  | forbidden
  | notFound
  | fileResponse (path : String) (mediaType : String)
deriving Repr, DecidableEq

/-- The web app's output directory, `GENERATED_DIR = Path("generated")`. -/
def GENERATED_DIR : String := "generated"

/-- Embedding of `web_app.download_file`: reject names containing a path
separator or a parent-directory marker with 403, missing files with 404,
resolved paths escaping the output directory with 403, and otherwise serve
the file as `application/pdf`. -/
def download_file (fs : FsView) (filename : String) : HttpResponse :=
  if hasSubstr ['/'] filename.toList || hasSubstr ['\\'] filename.toList
      || hasSubstr ['.', '.'] filename.toList then
    .forbidden
  else if ¬(fs.existsFile = true ∧ fs.isFile = true) then
    .notFound
  else if fs.resolvedInside = false then
    .forbidden
  else
    .fileResponse (GENERATED_DIR ++ "/" ++ filename) "application/pdf"

/-- The backquote character, used by the inline/fenced code patterns. -/
def backquoteChar : Char := Char.ofNat 96

/-- Python's `\s` character class (ASCII part, which covers the texts here). -/
def isPySpace (c : Char) : Bool :=
  c = ' ' || c = '\t' || c = '\n' || c = '\r' || c = '\x0b' || c = '\x0c'

/-- Consume a greedy run of `\s`, tracking whether the last consumed
whitespace character was a newline (so the caller knows whether the position
after the match is a line start). Returns the remaining input and that flag. -/
def dropSpacesTrack : List Char → Bool → List Char × Bool
  | [], lastNl => ([], lastNl)
  | c :: cs, lastNl =>
    if isPySpace c then dropSpacesTrack cs (c = '\n') else (c :: cs, lastNl)

/-- Non-greedy search for `(.+?)` followed by the closing delimiter `cl`:
consume at least one `allowed` character, stopping at the earliest position
where `cl` follows. Returns the captured group and the input after `cl`. -/
def findCloseP (cl : List Char) (allowed : Char → Bool) :
    List Char → Option (List Char × List Char)
  | [] => none
  | c :: cs =>
    if allowed c then
      if cl.isPrefixOf cs then some ([c], cs.drop cl.length)
      else
        match findCloseP cl allowed cs with
        | some (content, rest) => some (c :: content, rest)
        | none => none
    else none

/-- One `re.sub(op (.+?) cl, group, text)` pass: scan left to right, replace
each non-overlapping match by its group, continue after the match. `allowed`
restricts the content characters (`fun _ => true` for DOTALL patterns,
excluding the newline or the delimiter character otherwise). Fuel-indexed;
the wrapper passes the input length, which bounds the number of steps. -/
def reSubPairAux (op cl : List Char) (allowed : Char → Bool) :
    Nat → List Char → List Char
  | 0, l => l
  | _ + 1, [] => []
  | fuel + 1, c :: cs =>
    if op.isPrefixOf (c :: cs) then
      match findCloseP cl allowed ((c :: cs).drop op.length) with
      | some (content, rest) => content ++ reSubPairAux op cl allowed fuel rest
      | none => c :: reSubPairAux op cl allowed fuel cs
    else c :: reSubPairAux op cl allowed fuel cs

/-- Wrapper for `reSubPairAux` with sufficient fuel. -/
def reSubPair (op cl : List Char) (allowed : Char → Bool) (l : List Char) : List Char :=
  reSubPairAux op cl allowed l.length l

/-- Backtracking search for the link pattern tail: after the opening bracket,
find minimal `(.+?)` (newline-free) up to a position where the two characters
for closing-bracket-open-paren follow with a newline-free `(.+?)` and a
closing paren after them; on failure at a candidate, extend the text part
(regex backtracking). Returns the link text and the input after the match. -/
def findLinkClose : List Char → Option (List Char × List Char)
  | [] => none
  | c :: cs =>
    if c = '\n' then none
    else if [']', '('].isPrefixOf cs then
      match findCloseP [')'] (fun x => !(x = '\n')) (cs.drop 2) with
      | some (_, rest) => some ([c], rest)
      | none =>
        match findLinkClose cs with
        | some (content, rest) => some (c :: content, rest)
        | none => none
    else
      match findLinkClose cs with
      | some (content, rest) => some (c :: content, rest)
      | none => none

/-- One pass of the link substitution, keeping only the link text. -/
def reSubLinkAux : Nat → List Char → List Char
  | 0, l => l
  | _ + 1, [] => []
  | fuel + 1, c :: cs =>
    if c = '[' then
      match findLinkClose cs with
      | some (content, rest) => content ++ reSubLinkAux fuel rest
      | none => c :: reSubLinkAux fuel cs
    else c :: reSubLinkAux fuel cs

/-- Wrapper for `reSubLinkAux` with sufficient fuel. -/
def reSubLink (l : List Char) : List Char :=
  reSubLinkAux l.length l

/-- One MULTILINE pass of stripping a leading marker run plus following
whitespace at line starts (the `marker+` then `\s*` pattern anchored at `^`).
The boolean tracks whether the current position is a line start. -/
def anchorStartSubAux (marker : Char) : Nat → Bool → List Char → List Char
  | 0, _, l => l
  | _ + 1, _, [] => []
  | fuel + 1, atStart, c :: cs =>
    if atStart ∧ c = marker then
      let r1 := (c :: cs).dropWhile (fun x => x = marker)
      let p := dropSpacesTrack r1 false
      anchorStartSubAux marker fuel p.2 p.1
    else c :: anchorStartSubAux marker fuel (c = '\n') cs

/-- Wrapper for `anchorStartSubAux`: position 0 is a line start. -/
def anchorStartSub (marker : Char) (l : List Char) : List Char :=
  anchorStartSubAux marker l.length true l

/-- Try the trailing pattern `\s* marker+ $` at the current position: a greedy
whitespace run, then at least one marker, with a line end (end of input or a
newline) right after the marker run. Returns the rest after the match. -/
def tryTrailing (marker : Char) (l : List Char) : Option (List Char) :=
  match l.dropWhile isPySpace with
  | m :: ms =>
    if m = marker then
      match ms.dropWhile (fun x => x = marker) with
      | [] => some []
      | c2 :: r2 => if c2 = '\n' then some (c2 :: r2) else none
    else none
  | [] => none

/-- One MULTILINE pass of stripping whitespace plus a trailing marker run at
line ends (the `\s* marker+` pattern anchored at `$`), tried at every
position as `re.sub` does. -/
def anchorEndSubAux (marker : Char) : Nat → List Char → List Char
  | 0, l => l
  | _ + 1, [] => []
  | fuel + 1, c :: cs =>
    match tryTrailing marker (c :: cs) with
    | some rest => anchorEndSubAux marker fuel rest
    | none => c :: anchorEndSubAux marker fuel cs

/-- Wrapper for `anchorEndSubAux` with sufficient fuel. -/
def anchorEndSub (marker : Char) (l : List Char) : List Char :=
  anchorEndSubAux marker l.length l

/-- Try the bullet pattern `^\s*[-*+]\s+` at a line start: a greedy whitespace
run, one bullet marker, then at least one whitespace character (consumed
greedily). Returns the rest and whether the last consumed character was a
newline. -/
def tryBullet (l : List Char) : Option (List Char × Bool) :=
  match l.dropWhile isPySpace with
  | m :: r2 =>
    if m = '-' ∨ m = '*' ∨ m = '+' then
      match r2 with
      | c2 :: _ =>
        if isPySpace c2 then some (dropSpacesTrack r2 false)
        else none
      | [] => none
    else none
  | [] => none

/-- One MULTILINE pass of stripping bullet-list markers at line starts. -/
def bulletSubAux : Nat → Bool → List Char → List Char
  | 0, _, l => l
  | _ + 1, _, [] => []
  | fuel + 1, atStart, c :: cs =>
    if atStart then
      match tryBullet (c :: cs) with
      | some (rest, lastNl) => bulletSubAux fuel lastNl rest
      | none => c :: bulletSubAux fuel (c = '\n') cs
    else c :: bulletSubAux fuel (c = '\n') cs

/-- Wrapper for `bulletSubAux`: position 0 is a line start. -/
def bulletSub (l : List Char) : List Char :=
  bulletSubAux l.length true l

/-- Embedding of `pdf_builder.clean_markdown`: the thirteen `re.sub` passes in
source order — bold (asterisk and underscore forms), italics, strikethrough,
fenced and inline code, links, dangling leading/trailing emphasis markers at
line boundaries, and bullet markers. -/
def clean_markdown (s : String) : String :=
  let t0 := s.toList
  let t1 := reSubPair ['*', '*'] ['*', '*'] (fun _ => true) t0
  let t2 := reSubPair ['_', '_'] ['_', '_'] (fun _ => true) t1
  let t3 := reSubPair ['*'] ['*'] (fun c => !(c = '*')) t2
  let t4 := reSubPair ['_'] ['_'] (fun c => !(c = '_')) t3
  let t5 := reSubPair ['~', '~'] ['~', '~'] (fun _ => true) t4
  let t6 := reSubPair [backquoteChar, backquoteChar, backquoteChar]
    [backquoteChar, backquoteChar, backquoteChar] (fun _ => true) t5
  let t7 := reSubPair [backquoteChar] [backquoteChar] (fun c => !(c = '\n')) t6
  let t8 := reSubLink t7
  let t9 := anchorStartSub '*' t8
  let t10 := anchorEndSub '*' t9
  let t11 := anchorStartSub '_' t10
  let t12 := anchorEndSub '_' t11
  let t13 := bulletSub t12
  String.mk t13

/-- True when no line of the text starts (after optional whitespace) with a
bullet marker followed by whitespace, i.e. the bullet pass finds no match. -/
def noBulletStartAux : Bool → List Char → Bool
  | _, [] => true
  | atStart, c :: cs =>
    if atStart then
      match tryBullet (c :: cs) with
      | some _ => false
      | none => noBulletStartAux (c = '\n') cs
    else noBulletStartAux (c = '\n') cs

/-- Text with no markup trigger left: none of the delimiter characters of the
markup grammar occurs, and no line begins with a bullet marker. Every pass of
`clean_markdown` leaves such text unchanged. A text is free of nested markup
precisely when one normalizing pass strips all of its markup, i.e. when its
image under `clean_markdown` satisfies this predicate. -/
def cleanTriggerFree (t : List Char) : Bool :=
  t.all (fun c => !(c = '*' || c = '_' || c = '~' || c = backquoteChar || c = '[')) &&
  noBulletStartAux true t

section SortLemmas

variable {α : Type}

theorem pySorted_perm (key : α → Int) (r : Bool) (l : List α) :
    List.Perm (pySorted key r l) l := by
  unfold pySorted
  split <;> exact List.perm_insertionSort _ l

theorem insertionSort_filter_eqKey (key : α → Int) (rel : α → α → Prop)
    [DecidableRel rel] (hrel : ∀ a b : α, key a = key b → rel a b)
    (l : List α) (v : Int) :
    (l.insertionSort rel).filter (fun p => key p == v) =
      l.filter (fun p => key p == v) := by
  set q : α → Bool := fun p => key p == v with hq
  have hsub : List.Sublist (l.filter q) (l.insertionSort rel) := by
    apply List.sublist_insertionSort _ (List.filter_sublist l)
    apply List.Pairwise.imp_of_mem _ (List.pairwise_of_forall_mem_list (fun a _ b _ => True.intro))
    intro a b ha hb _
    have ha' : key a = v := by simpa [hq] using List.of_mem_filter ha
    have hb' : key b = v := by simpa [hq] using List.of_mem_filter hb
    exact hrel a b (ha'.trans hb'.symm)
  have hsub2 : List.Sublist (l.filter q) ((l.insertionSort rel).filter q) := by
    have h1 : (l.filter q).filter q = l.filter q := by
      simp [List.filter_filter]
    have h2 := hsub.filter q
    rw [h1] at h2
    exact h2
  have hlen : ((l.insertionSort rel).filter q).length = (l.filter q).length :=
    ((List.perm_insertionSort rel l).filter q).length_eq
  exact (hsub2.eq_of_length hlen.symm).symm

theorem pySorted_filter_key (key : α → Int) (r : Bool) (l : List α) (v : Int) :
    (pySorted key r l).filter (fun p => key p == v) =
      l.filter (fun p => key p == v) := by
  unfold pySorted
  split
  · exact insertionSort_filter_eqKey key _ (fun a b h => ge_of_eq h) l v
  · exact insertionSort_filter_eqKey key _ (fun a b h => le_of_eq h) l v

end SortLemmas

section OrchestratorLemmas

theorem generate_report_invalid (cfg : Config) (env : LiveEnv) (channel : String)
    (df dt : Int) (st : String) (asc : Bool) (fn : Option String) (od : String)
    (h : pyStrip channel = "" ∨ dt < df ∨ ¬(st = "date" ∨ st = "reactions" ∨ st = "views")) :
    (∃ m, (generate_report cfg env channel df dt st asc fn od).1 =
      .error (.invalidParameter m)) ∧
    (generate_report cfg env channel df dt st asc fn od).2 = [] := by
  unfold generate_report
  by_cases h1 : pyStrip channel = ""
  · rw [if_pos h1]
    exact ⟨⟨_, rfl⟩, rfl⟩
  · rw [if_neg h1]
    by_cases h2 : dt < df
    · rw [if_pos h2]
      exact ⟨⟨_, rfl⟩, rfl⟩
    · rw [if_neg h2]
      have h3 : ¬(st = "date" ∨ st = "reactions" ∨ st = "views") := by tauto
      rw [if_pos h3]
      exact ⟨⟨_, rfl⟩, rfl⟩

theorem sort_posts_ok (posts : List Post) (st : String) (asc : Bool)
    (hst : st = "date" ∨ st = "reactions" ∨ st = "views") :
    ∃ out, sort_posts posts st asc = .ok out := by
  rcases hst with h | h | h <;> subst h <;> exact ⟨_, rfl⟩

theorem generate_report_cases (cfg : Config) (env : LiveEnv) (channel : String)
    (df dt : Int) (st : String) (asc : Bool) (fn : Option String) (od : String)
    (hch : ¬pyStrip channel = "") (hd : ¬dt < df)
    (hst : st = "date" ∨ st = "reactions" ∨ st = "views") :
    (is_demo_mode cfg = true ∧ get_demo_posts df dt = [] ∧
      (generate_report cfg env channel df dt st asc fn od).2 = [Effect.mkdirOutput od] ∧
      ∃ m, (generate_report cfg env channel df dt st asc fn od).1 =
        .error (.noPostsFound m)) ∨
    (is_demo_mode cfg = true ∧ ¬get_demo_posts df dt = [] ∧
      (generate_report cfg env channel df dt st asc fn od).2 =
        [Effect.mkdirOutput od,
         Effect.writeFile (od ++ "/" ++ resolve_filename fn channel df dt)] ∧
      (if env.createPdfOk then
        (generate_report cfg env channel df dt st asc fn od).1 =
          .ok (od ++ "/" ++ resolve_filename fn channel df dt)
       else ∃ m, (generate_report cfg env channel df dt st asc fn od).1 =
          .error (.reportGeneration m))) ∨
    (is_demo_mode cfg = false ∧ env.connectOk = false ∧
      (generate_report cfg env channel df dt st asc fn od).2 =
        [Effect.mkdirOutput od, Effect.connectFailed] ∧
      ∃ m, (generate_report cfg env channel df dt st asc fn od).1 =
        .error (.telegramConnection m)) ∨
    (is_demo_mode cfg = false ∧ env.connectOk = true ∧
      (∃ m, env.fetchOutcome = .valueError m ∨ env.fetchOutcome = .failure m) ∧
      (generate_report cfg env channel df dt st asc fn od).2 =
        [Effect.mkdirOutput od, Effect.connect, Effect.fetch channel df dt,
         Effect.disconnect, Effect.disconnect] ∧
      ∃ m, ((generate_report cfg env channel df dt st asc fn od).1 =
          .error (.channelNotFound m) ∨
        (generate_report cfg env channel df dt st asc fn od).1 =
          .error (.reportGeneration m))) ∨
    (is_demo_mode cfg = false ∧ env.connectOk = true ∧ env.fetchOutcome = .ok [] ∧
      (generate_report cfg env channel df dt st asc fn od).2 =
        [Effect.mkdirOutput od, Effect.connect, Effect.fetch channel df dt,
         Effect.disconnect] ∧
      ∃ m, (generate_report cfg env channel df dt st asc fn od).1 =
        .error (.noPostsFound m)) ∨
    (∃ posts, is_demo_mode cfg = false ∧ env.connectOk = true ∧
      env.fetchOutcome = .ok posts ∧ ¬posts = [] ∧
      (generate_report cfg env channel df dt st asc fn od).2 =
        [Effect.mkdirOutput od, Effect.connect, Effect.fetch channel df dt,
         Effect.disconnect,
         Effect.writeFile (od ++ "/" ++ resolve_filename fn channel df dt)] ∧
      (if env.createPdfOk then
        (generate_report cfg env channel df dt st asc fn od).1 =
          .ok (od ++ "/" ++ resolve_filename fn channel df dt)
       else ∃ m, (generate_report cfg env channel df dt st asc fn od).1 =
          .error (.reportGeneration m))) := by
  have hgen : generate_report cfg env channel df dt st asc fn od =
      (if is_demo_mode cfg then
        finish_report env df dt st asc
          (od ++ "/" ++ resolve_filename fn channel df dt)
          (get_demo_posts df dt) [Effect.mkdirOutput od]
      else if env.connectOk = false then
        (.error (.telegramConnection ("Не удалось подключиться к Telegram: "
          ++ env.connectErrMsg)), [Effect.mkdirOutput od, Effect.connectFailed])
      else
        match env.fetchOutcome with
        | .ok posts =>
          finish_report env df dt st asc
            (od ++ "/" ++ resolve_filename fn channel df dt) posts
            [Effect.mkdirOutput od, Effect.connect, Effect.fetch channel df dt,
             Effect.disconnect]
        | .valueError m =>
          (.error (.channelNotFound m),
            [Effect.mkdirOutput od, Effect.connect, Effect.fetch channel df dt,
             Effect.disconnect, Effect.disconnect])
        | .failure m =>
          (.error (.reportGeneration ("Ошибка получения постов: " ++ m)),
            [Effect.mkdirOutput od, Effect.connect, Effect.fetch channel df dt,
             Effect.disconnect, Effect.disconnect])) := by
    unfold generate_report
    rw [if_neg hch, if_neg hd, if_neg (not_not_intro hst)]
    rfl
  by_cases hdemo : is_demo_mode cfg = true
  · rw [if_pos hdemo] at hgen
    by_cases hpost : get_demo_posts df dt = []
    · left
      unfold finish_report at hgen
      rw [if_pos hpost] at hgen
      exact ⟨hdemo, hpost, by rw [hgen], ⟨_, by rw [hgen]⟩⟩
    · right; left
      unfold finish_report at hgen
      rw [if_neg hpost] at hgen
      obtain ⟨out, hout⟩ := sort_posts_ok (get_demo_posts df dt) st asc hst
      rw [hout] at hgen
      refine ⟨hdemo, hpost, ?_, ?_⟩
      · by_cases hpdf : env.createPdfOk = true <;>
          [rw [if_pos hpdf] at hgen; rw [if_neg hpdf] at hgen] <;>
          (rw [hgen]; rfl)
      · by_cases hpdf : env.createPdfOk = true
        · rw [if_pos hpdf] at hgen ⊢
          rw [hgen]
        · rw [if_neg hpdf] at hgen ⊢
          exact ⟨_, by rw [hgen]⟩
  · have hdemo' : is_demo_mode cfg = false := by
      cases h : is_demo_mode cfg
      · rfl
      · exact absurd h hdemo
    rw [if_neg hdemo] at hgen
    by_cases hconn : env.connectOk = true
    · rw [if_neg (by simp [hconn])] at hgen
      cases hf : env.fetchOutcome with
      | ok posts =>
        rw [hf] at hgen
        simp only [] at hgen
        by_cases hpost : posts = []
        · subst hpost
          right; right; right; right; left
          unfold finish_report at hgen
          rw [if_pos rfl] at hgen
          exact ⟨hdemo', hconn, rfl, by rw [hgen], ⟨_, by rw [hgen]⟩⟩
        · right; right; right; right; right
          unfold finish_report at hgen
          rw [if_neg hpost] at hgen
          obtain ⟨out, hout⟩ := sort_posts_ok posts st asc hst
          rw [hout] at hgen
          refine ⟨posts, hdemo', hconn, rfl, hpost, ?_, ?_⟩
          · by_cases hpdf : env.createPdfOk = true <;>
              [rw [if_pos hpdf] at hgen; rw [if_neg hpdf] at hgen] <;>
              (rw [hgen]; rfl)
          · by_cases hpdf : env.createPdfOk = true
            · rw [if_pos hpdf] at hgen ⊢
              rw [hgen]
            · rw [if_neg hpdf] at hgen ⊢
              exact ⟨_, by rw [hgen]⟩
      | valueError m =>
        rw [hf] at hgen
        simp only [] at hgen
        right; right; right; left
        exact ⟨hdemo', hconn, ⟨m, Or.inl rfl⟩, by rw [hgen], ⟨m, Or.inl (by rw [hgen])⟩⟩
      | failure m =>
        rw [hf] at hgen
        simp only [] at hgen
        right; right; right; left
        exact ⟨hdemo', hconn, ⟨m, Or.inr rfl⟩, by rw [hgen], ⟨_, Or.inr (by rw [hgen])⟩⟩
    · right; right; left
      have hconn' : env.connectOk = false := by
        cases h : env.connectOk
        · rfl
        · exact absurd h hconn
      rw [if_pos hconn'] at hgen
      exact ⟨hdemo', hconn', by rw [hgen], ⟨_, by rw [hgen]⟩⟩

theorem demo_mem_bounds (df dt : Int) (p : Post)
    (hp : p ∈ get_demo_posts df dt) : df ≤ p.date ∧ p.date ≤ dt := by
  unfold get_demo_posts at hp
  have h := List.mem_filter.mp hp
  simpa using h.2

theorem demo_head (df dt : Int) (h : df ≤ dt) :
    get_demo_posts df dt ≠ [] ∧
      (get_demo_posts df dt).head?.map Post.date = some df := by
  have hmin : min (0 : Int) (max (dt - df) 0) = 0 := by omega
  unfold get_demo_posts demo_catalog
  simp only [List.filter_cons, hmin, add_zero, Bool.and_eq_true, decide_eq_true_eq]
  rw [if_pos ⟨le_refl df, h⟩]
  simp

end OrchestratorLemmas

section OrchestratorClaims

/-- C1: for a blank channel identifier, an inverted date range (`date_to <
date_from`), or a sort key outside the three recognised values,
`generate_report` fails immediately with `ValueError` (`InvalidParameter`)
and its effect trace is empty — no filesystem or network operation is
performed before the failure. -/
theorem generate_report_invalid_parameter (cfg : Config) (env : LiveEnv)
    (channel : String) (df dt : Int) (st : String) (asc : Bool)
    (fn : Option String) (od : String)
    (h : pyStrip channel = "" ∨ dt < df ∨
      ¬(st = "date" ∨ st = "reactions" ∨ st = "views")) :
    (∃ m, (generate_report cfg env channel df dt st asc fn od).1 =
      .error (.invalidParameter m)) ∧
    (generate_report cfg env channel df dt st asc fn od).2 = [] :=
  generate_report_invalid cfg env channel df dt st asc fn od h

/-- Witness for C1 at a concrete request with an inverted date range. -/
theorem generate_report_invalid_parameter_witness :
    (∃ m, (generate_report ⟨true, none, none⟩ ⟨true, "", .ok [], true, ""⟩
      "chan" 1 0 "date" true none "generated").1 = .error (.invalidParameter m)) ∧
    (generate_report ⟨true, none, none⟩ ⟨true, "", .ok [], true, ""⟩
      "chan" 1 0 "date" true none "generated").2 = [] :=
  generate_report_invalid_parameter ⟨true, none, none⟩ ⟨true, "", .ok [], true, ""⟩
    "chan" 1 0 "date" true none "generated" (Or.inr (Or.inl (by decide)))

/-- C2: frame effects of `generate_report`: no document file is written on a
validation failure or on any fetch failure (connection or fetch error); the
output directory is created whenever validation passes; a successful call
writes exactly one file; and in live mode any file write is preceded by the
fetch — fetching happens before all file I/O. -/
theorem generate_report_frame_effects (cfg : Config) (env : LiveEnv)
    (channel : String) (df dt : Int) (st : String) (asc : Bool)
    (fn : Option String) (od : String) :
    ((pyStrip channel = "" ∨ dt < df ∨
        ¬(st = "date" ∨ st = "reactions" ∨ st = "views")) →
      ∀ p, Effect.writeFile p ∉ (generate_report cfg env channel df dt st asc fn od).2) ∧
    (is_demo_mode cfg = false →
      (env.connectOk = false ∨ (∃ m, env.fetchOutcome = .valueError m) ∨
        (∃ m, env.fetchOutcome = .failure m)) →
      ∀ p, Effect.writeFile p ∉ (generate_report cfg env channel df dt st asc fn od).2) ∧
    (¬pyStrip channel = "" → ¬dt < df →
      (st = "date" ∨ st = "reactions" ∨ st = "views") →
      Effect.mkdirOutput od ∈ (generate_report cfg env channel df dt st asc fn od).2) ∧
    (∀ path, (generate_report cfg env channel df dt st asc fn od).1 = .ok path →
      (generate_report cfg env channel df dt st asc fn od).2.countP isWrite = 1) ∧
    (is_demo_mode cfg = false →
      ∀ p, Effect.writeFile p ∈ (generate_report cfg env channel df dt st asc fn od).2 →
      Effect.fetch channel df dt ∈
        beforeFirstWrite (generate_report cfg env channel df dt st asc fn od).2) := by
  refine ⟨?_, ?_, ?_, ?_, ?_⟩
  · intro h p
    rw [(generate_report_invalid cfg env channel df dt st asc fn od h).2]
    simp
  · intro hdemo hfail p
    by_cases hval : pyStrip channel = "" ∨ dt < df ∨
        ¬(st = "date" ∨ st = "reactions" ∨ st = "views")
    · rw [(generate_report_invalid cfg env channel df dt st asc fn od hval).2]
      simp
    · have hch : ¬pyStrip channel = "" := fun hc => hval (Or.inl hc)
      have hd : ¬dt < df := fun hc => hval (Or.inr (Or.inl hc))
      have hst : st = "date" ∨ st = "reactions" ∨ st = "views" := by
        by_contra hc
        exact hval (Or.inr (Or.inr hc))
      rcases generate_report_cases cfg env channel df dt st asc fn od hch hd hst with
        ⟨h1, _⟩ | ⟨h1, _⟩ | ⟨_, _, htr, _⟩ | ⟨_, _, _, htr, _⟩ |
        ⟨_, _, _, htr, _⟩ | ⟨posts, _, hconn, hfp, _, htr, _⟩
      · rw [hdemo] at h1
        exact absurd h1 (by simp)
      · rw [hdemo] at h1
        exact absurd h1 (by simp)
      · rw [htr]
        simp
      · rw [htr]
        simp
      · rw [htr]
        simp
      · rcases hfail with hc | ⟨m, hm⟩ | ⟨m, hm⟩
        · rw [hconn] at hc
          exact absurd hc (by simp)
        · rw [hfp] at hm
          exact absurd hm (by simp)
        · rw [hfp] at hm
          exact absurd hm (by simp)
  · intro hch hd hst
    rcases generate_report_cases cfg env channel df dt st asc fn od hch hd hst with
      ⟨_, _, htr, _⟩ | ⟨_, _, htr, _⟩ | ⟨_, _, htr, _⟩ | ⟨_, _, _, htr, _⟩ |
      ⟨_, _, _, htr, _⟩ | ⟨posts, _, _, _, _, htr, _⟩ <;>
      rw [htr] <;> simp
  · intro path hok
    by_cases hval : pyStrip channel = "" ∨ dt < df ∨
        ¬(st = "date" ∨ st = "reactions" ∨ st = "views")
    · obtain ⟨⟨m, hm⟩, _⟩ := generate_report_invalid cfg env channel df dt st asc fn od hval
      rw [hok] at hm
      exact absurd hm (by simp)
    · have hch : ¬pyStrip channel = "" := fun hc => hval (Or.inl hc)
      have hd : ¬dt < df := fun hc => hval (Or.inr (Or.inl hc))
      have hst : st = "date" ∨ st = "reactions" ∨ st = "views" := by
        by_contra hc
        exact hval (Or.inr (Or.inr hc))
      rcases generate_report_cases cfg env channel df dt st asc fn od hch hd hst with
        ⟨_, _, _, m, hm⟩ | ⟨_, _, htr, hif⟩ | ⟨_, _, _, m, hm⟩ |
        ⟨_, _, _, _, m, hm⟩ | ⟨_, _, _, _, m, hm⟩ | ⟨posts, _, _, _, _, htr, hif⟩
      · rw [hok] at hm
        exact absurd hm (by simp)
      · rw [htr]
        simp [isWrite]
      · rw [hok] at hm
        exact absurd hm (by simp)
      · rcases hm with hm | hm <;> rw [hok] at hm <;> exact absurd hm (by simp)
      · rw [hok] at hm
        exact absurd hm (by simp)
      · rw [htr]
        simp [isWrite]
  · intro hdemo p hw
    by_cases hval : pyStrip channel = "" ∨ dt < df ∨
        ¬(st = "date" ∨ st = "reactions" ∨ st = "views")
    · rw [(generate_report_invalid cfg env channel df dt st asc fn od hval).2] at hw
      simp at hw
    · have hch : ¬pyStrip channel = "" := fun hc => hval (Or.inl hc)
      have hd : ¬dt < df := fun hc => hval (Or.inr (Or.inl hc))
      have hst : st = "date" ∨ st = "reactions" ∨ st = "views" := by
        by_contra hc
        exact hval (Or.inr (Or.inr hc))
      rcases generate_report_cases cfg env channel df dt st asc fn od hch hd hst with
        ⟨h1, _⟩ | ⟨h1, _⟩ | ⟨_, _, htr, _⟩ | ⟨_, _, _, htr, _⟩ |
        ⟨_, _, _, htr, _⟩ | ⟨posts, _, _, _, _, htr, _⟩
      · rw [hdemo] at h1
        exact absurd h1 (by simp)
      · rw [hdemo] at h1
        exact absurd h1 (by simp)
      · rw [htr] at hw
        simp at hw
      · rw [htr] at hw
        simp at hw
      · rw [htr] at hw
        simp at hw
      · rw [htr]
        simp [beforeFirstWrite, isWrite]

/-- Witness for C2 at a concrete valid demo request: the output directory
creation effect is present in the trace. -/
theorem generate_report_frame_effects_witness :
    Effect.mkdirOutput "generated" ∈ (generate_report ⟨true, none, none⟩
      ⟨true, "", .ok [], true, ""⟩ "chan" 0 1 "date" true none "generated").2 :=
  (generate_report_frame_effects ⟨true, none, none⟩ ⟨true, "", .ok [], true, ""⟩
    "chan" 0 1 "date" true none "generated").2.2.1 (by decide) (by decide) (Or.inl rfl)

/-- C5: a valid request whose data source yields zero qualifying messages
(live fetch succeeding with an empty list) fails with `NoPostsFoundError`
(`EmptyResult`) and writes no output file. In demo mode with valid dates the
generator never returns an empty list (see the C10 theorem), so the live
source is the only way to reach this branch. -/
theorem generate_report_empty_result (cfg : Config) (env : LiveEnv)
    (channel : String) (df dt : Int) (st : String) (asc : Bool)
    (fn : Option String) (od : String)
    (hch : ¬pyStrip channel = "") (hd : ¬dt < df)
    (hst : st = "date" ∨ st = "reactions" ∨ st = "views")
    (hdemo : is_demo_mode cfg = false) (hconn : env.connectOk = true)
    (hf : env.fetchOutcome = .ok []) :
    (∃ m, (generate_report cfg env channel df dt st asc fn od).1 =
      .error (.noPostsFound m)) ∧
    ∀ p, Effect.writeFile p ∉ (generate_report cfg env channel df dt st asc fn od).2 := by
  rcases generate_report_cases cfg env channel df dt st asc fn od hch hd hst with
    ⟨h1, _⟩ | ⟨h1, _⟩ | ⟨_, hcf, _⟩ | ⟨_, _, ⟨m, hm⟩, _⟩ |
    ⟨_, _, _, htr, hres⟩ | ⟨posts, _, _, hfp, hne, _⟩
  · rw [hdemo] at h1
    exact absurd h1 (by simp)
  · rw [hdemo] at h1
    exact absurd h1 (by simp)
  · rw [hcf] at hconn
    exact absurd hconn (by simp)
  · rcases hm with hm | hm <;> rw [hf] at hm <;> exact absurd hm (by simp)
  · exact ⟨hres, by rw [htr]; simp⟩
  · rw [hf] at hfp
    have : posts = [] := by
      cases hfp
      rfl
    exact absurd this hne

/-- Witness for C5 at a concrete live request whose fetch returns no posts. -/
theorem generate_report_empty_result_witness :
    (∃ m, (generate_report ⟨false, some 1, some "h"⟩ ⟨true, "", .ok [], true, ""⟩
      "chan" 0 1 "date" true none "generated").1 = .error (.noPostsFound m)) ∧
    ∀ p, Effect.writeFile p ∉ (generate_report ⟨false, some 1, some "h"⟩
      ⟨true, "", .ok [], true, ""⟩ "chan" 0 1 "date" true none "generated").2 :=
  generate_report_empty_result ⟨false, some 1, some "h"⟩ ⟨true, "", .ok [], true, ""⟩
    "chan" 0 1 "date" true none "generated" (by decide) (by decide) (Or.inl rfl)
    (by decide) rfl rfl

/-- C6: every execution that successfully acquires a connection to the
message source (the `connect` effect was recorded) also releases it — the
`disconnect` effect occurs in the trace on the success path and on every
failure path, and it occurs before any document-file write. -/
theorem generate_report_releases_connection (cfg : Config) (env : LiveEnv)
    (channel : String) (df dt : Int) (st : String) (asc : Bool)
    (fn : Option String) (od : String)
    (hc : Effect.connect ∈ (generate_report cfg env channel df dt st asc fn od).2) :
    Effect.disconnect ∈ (generate_report cfg env channel df dt st asc fn od).2 ∧
    Effect.disconnect ∈
      beforeFirstWrite (generate_report cfg env channel df dt st asc fn od).2 := by
  by_cases hval : pyStrip channel = "" ∨ dt < df ∨
      ¬(st = "date" ∨ st = "reactions" ∨ st = "views")
  · rw [(generate_report_invalid cfg env channel df dt st asc fn od hval).2] at hc
    simp at hc
  · have hch : ¬pyStrip channel = "" := fun h => hval (Or.inl h)
    have hd : ¬dt < df := fun h => hval (Or.inr (Or.inl h))
    have hst : st = "date" ∨ st = "reactions" ∨ st = "views" := by
      by_contra h
      exact hval (Or.inr (Or.inr h))
    rcases generate_report_cases cfg env channel df dt st asc fn od hch hd hst with
      ⟨_, _, htr, _⟩ | ⟨_, _, htr, _⟩ | ⟨_, _, htr, _⟩ | ⟨_, _, _, htr, _⟩ |
      ⟨_, _, _, htr, _⟩ | ⟨posts, _, _, _, _, htr, _⟩
    · rw [htr] at hc
      simp at hc
    · rw [htr] at hc
      simp at hc
    · rw [htr] at hc
      simp at hc
    · rw [htr]
      refine ⟨by simp, ?_⟩
      simp [beforeFirstWrite, isWrite]
    · rw [htr]
      refine ⟨by simp, ?_⟩
      simp [beforeFirstWrite, isWrite]
    · rw [htr]
      refine ⟨by simp, ?_⟩
      simp [beforeFirstWrite, isWrite]

/-- Witness for C6 at a concrete live request whose fetch fails with a
channel-resolution error: the connection is acquired, and released before
the call propagates the error. -/
theorem generate_report_releases_connection_witness :
    Effect.disconnect ∈ (generate_report ⟨false, some 1, some "h"⟩
      ⟨true, "", .valueError "нет", true, ""⟩ "chan" 0 1 "date" true none
      "generated").2 ∧
    Effect.disconnect ∈ beforeFirstWrite (generate_report ⟨false, some 1, some "h"⟩
      ⟨true, "", .valueError "нет", true, ""⟩ "chan" 0 1 "date" true none
      "generated").2 :=
  generate_report_releases_connection ⟨false, some 1, some "h"⟩
    ⟨true, "", .valueError "нет", true, ""⟩ "chan" 0 1 "date" true none "generated"
    (by decide)

/-- C10: for every valid window the demo generator returns a non-empty list
whose first post is dated exactly `date_from` (offset `min(0, days) = 0`
always passes the window filter), so in demo mode the `EmptyResult`
(`NoPostsFoundError`) branch of `generate_report` is unreachable for valid
parameters. -/
theorem demo_mode_no_empty_result :
    (∀ df dt : Int, df ≤ dt → get_demo_posts df dt ≠ [] ∧
      (get_demo_posts df dt).head?.map Post.date = some df) ∧
    (∀ (cfg : Config) (env : LiveEnv) (channel : String) (df dt : Int)
      (st : String) (asc : Bool) (fn : Option String) (od : String),
      ¬pyStrip channel = "" → df ≤ dt →
      (st = "date" ∨ st = "reactions" ∨ st = "views") →
      is_demo_mode cfg = true →
      ∀ m, (generate_report cfg env channel df dt st asc fn od).1 ≠
        .error (.noPostsFound m)) := by
  constructor
  · intro df dt h
    exact demo_head df dt h
  · intro cfg env channel df dt st asc fn od hch hd hst hdemo m hcontra
    have hd' : ¬dt < df := by omega
    rcases generate_report_cases cfg env channel df dt st asc fn od hch hd' hst with
      ⟨_, hemp, _⟩ | ⟨_, _, _, hif⟩ | ⟨h1, _⟩ | ⟨h1, _⟩ | ⟨h1, _⟩ | ⟨posts, h1, _⟩
    · exact (demo_head df dt hd).1 hemp
    · by_cases hpdf : env.createPdfOk = true
      · rw [if_pos hpdf] at hif
        rw [hcontra] at hif
        exact absurd hif (by simp)
      · rw [if_neg hpdf] at hif
        obtain ⟨m2, hm2⟩ := hif
        rw [hcontra] at hm2
        exact absurd hm2 (by simp)
    · rw [hdemo] at h1
      exact absurd h1 (by simp)
    · rw [hdemo] at h1
      exact absurd h1 (by simp)
    · rw [hdemo] at h1
      exact absurd h1 (by simp)
    · rw [hdemo] at h1
      exact absurd h1 (by simp)

/-- Witness for C10: the demo list over the window `[0, 1]` is non-empty, and
a concrete valid demo request never fails with `NoPostsFoundError`. -/
theorem demo_mode_no_empty_result_witness :
    get_demo_posts 0 1 ≠ [] ∧
    (generate_report ⟨true, none, none⟩ ⟨true, "", .ok [], true, ""⟩ "chan" 0 1
      "date" true none "generated").1 ≠ .error (.noPostsFound "x") :=
  ⟨(demo_mode_no_empty_result.1 0 1 (by decide)).1,
   demo_mode_no_empty_result.2 ⟨true, none, none⟩ ⟨true, "", .ok [], true, ""⟩
     "chan" 0 1 "date" true none "generated" (by decide) (by decide)
     (Or.inl rfl) (by decide) "x"⟩

end OrchestratorClaims

section SortClaims

/-- C3: `sort_posts` is a stable reordering: for every fixed value of the
sort key, the subsequence of posts carrying that key value is the same in the
ascending output, in the descending output, and in the input. Hence two posts
with equal key value keep their original relative order under either
direction — the direction flag negates only the key comparison, never the
tie order. -/
theorem sort_posts_tie_order (posts : List Post) (sort_type : String)
    (hst : sort_type = "date" ∨ sort_type = "reactions" ∨ sort_type = "views")
    (v : Int) :
    ∃ outAsc outDesc : List Post,
      sort_posts posts sort_type true = .ok outAsc ∧
      sort_posts posts sort_type false = .ok outDesc ∧
      outAsc.filter (fun p => sortKey sort_type p == v) =
        posts.filter (fun p => sortKey sort_type p == v) ∧
      outDesc.filter (fun p => sortKey sort_type p == v) =
        posts.filter (fun p => sortKey sort_type p == v) := by
  rcases hst with h | h | h <;> subst h <;>
    exact ⟨_, _, rfl, rfl, pySorted_filter_key _ _ posts v,
      pySorted_filter_key _ _ posts v⟩

/-- Witness for C3 on a two-post list with equal dates. -/
theorem sort_posts_tie_order_witness :
    ∃ outAsc outDesc : List Post,
      sort_posts [⟨5, "a", some 1, []⟩, ⟨5, "b", none, []⟩] "date" true = .ok outAsc ∧
      sort_posts [⟨5, "a", some 1, []⟩, ⟨5, "b", none, []⟩] "date" false = .ok outDesc ∧
      outAsc.filter (fun p => sortKey "date" p == 5) =
        ([⟨5, "a", some 1, []⟩, ⟨5, "b", none, []⟩] : List Post).filter
          (fun p => sortKey "date" p == 5) ∧
      outDesc.filter (fun p => sortKey "date" p == 5) =
        ([⟨5, "a", some 1, []⟩, ⟨5, "b", none, []⟩] : List Post).filter
          (fun p => sortKey "date" p == 5) :=
  sort_posts_tie_order [⟨5, "a", some 1, []⟩, ⟨5, "b", none, []⟩] "date"
    (Or.inl rfl) 5

/-- C4: sorting by views treats an absent view count exactly as the value 0:
`get_views` maps absence to 0, no post is ever excluded (the output is a
permutation of the input), and the posts whose views key equals 0 — view
count absent or explicitly 0 — appear in the output in their original
relative order, by stability. -/
theorem sort_posts_views_none_as_zero :
    (∀ p : Post, p.views = none → get_views p = 0) ∧
    (∀ (posts : List Post) (asc : Bool), ∃ out : List Post,
      sort_posts posts "views" asc = .ok out ∧
      List.Perm out posts ∧
      out.filter (fun p => get_views p == 0) =
        posts.filter (fun p => get_views p == 0)) := by
  constructor
  · intro p hp
    simp [get_views, hp]
  · intro posts asc
    exact ⟨_, rfl, pySorted_perm get_views (!asc) posts,
      pySorted_filter_key get_views (!asc) posts 0⟩

/-- Witness for C4 on a post with absent views and a post with views 0. -/
theorem sort_posts_views_none_as_zero_witness :
    get_views ⟨3, "x", none, []⟩ = 0 ∧
    (∃ out : List Post,
      sort_posts [⟨3, "x", none, []⟩, ⟨4, "y", some 0, []⟩] "views" true = .ok out ∧
      List.Perm out [⟨3, "x", none, []⟩, ⟨4, "y", some 0, []⟩] ∧
      out.filter (fun p => get_views p == 0) =
        ([⟨3, "x", none, []⟩, ⟨4, "y", some 0, []⟩] : List Post).filter
          (fun p => get_views p == 0)) :=
  ⟨sort_posts_views_none_as_zero.1 ⟨3, "x", none, []⟩ rfl,
   sort_posts_views_none_as_zero.2 [⟨3, "x", none, []⟩, ⟨4, "y", some 0, []⟩] true⟩

end SortClaims

section DemoClaims

/-- C7: the demo generator is a deterministic pure function of the window:
it returns at most 7 posts; the catalog's k-th post (k = 0..6) is dated
`date_from + min(k, days_in_window)` with `days_in_window =
max(date_to - date_from, 0)`; the result is exactly the catalog filtered to
`[date_from, date_to]`; every returned post's date lies in the window; and
for a window of exactly one day every offset collapses to day 0, all 7 posts
are returned and each is dated `date_from`. -/
theorem get_demo_posts_window :
    (∀ df dt : Int, (get_demo_posts df dt).length ≤ 7) ∧
    (∀ df dt : Int, (demo_catalog df dt).map Post.date =
      [df + min 0 (max (dt - df) 0), df + min 1 (max (dt - df) 0),
       df + min 2 (max (dt - df) 0), df + min 3 (max (dt - df) 0),
       df + min 4 (max (dt - df) 0), df + min 5 (max (dt - df) 0),
       df + min 6 (max (dt - df) 0)]) ∧
    (∀ df dt : Int, get_demo_posts df dt = (demo_catalog df dt).filter
      (fun p => decide (df ≤ p.date) && decide (p.date ≤ dt))) ∧
    (∀ df dt : Int, ∀ p ∈ get_demo_posts df dt, df ≤ p.date ∧ p.date ≤ dt) ∧
    (∀ df : Int, (get_demo_posts df df).length = 7 ∧
      ∀ p ∈ get_demo_posts df df, p.date = df) := by
  refine ⟨?_, ?_, ?_, ?_, ?_⟩
  · intro df dt
    have h := List.length_filter_le
      (fun p : Post => decide (df ≤ p.date) && decide (p.date ≤ dt))
      (demo_catalog df dt)
    have h7 : (demo_catalog df dt).length = 7 := rfl
    rw [h7] at h
    exact h
  · intro df dt
    rfl
  · intro df dt
    rfl
  · intro df dt p hp
    exact demo_mem_bounds df dt p hp
  · intro df
    have h0 : max (df - df) 0 = 0 := by omega
    have hm : ∀ k : Int, 0 ≤ k → df + min k 0 = df := by
      intro k hk
      omega
    constructor
    · unfold get_demo_posts demo_catalog
      rw [h0]
      simp only [hm 0 (by omega), hm 1 (by omega), hm 2 (by omega),
        hm 3 (by omega), hm 4 (by omega), hm 5 (by omega), hm 6 (by omega)]
      simp
    · intro p hp
      have h := demo_mem_bounds df df p hp
      omega

/-- Witness for C7: the window membership at a concrete window and the
one-day-window collapse at a concrete date. -/
theorem get_demo_posts_window_witness :
    (get_demo_posts 0 2).length ≤ 7 ∧
    (get_demo_posts 10 10).length = 7 :=
  ⟨get_demo_posts_window.1 0 2, (get_demo_posts_window.2.2.2.2 10).1⟩

end DemoClaims

section WebClaims

/-- C9: `GET /files/{name}` returns 403 for any name containing a path
separator or a parent-directory marker; for a clean name of an existing
regular file it additionally returns 403 when the resolved path escapes the
output directory, and otherwise serves the file from the output directory
with the `application/pdf` media type; in particular the traversal name
`../../etc/passwd` is always forbidden. -/
theorem download_file_safety :
    (∀ (fs : FsView) (filename : String),
      (hasSubstr ['/'] filename.toList || hasSubstr ['\\'] filename.toList ||
        hasSubstr ['.', '.'] filename.toList) = true →
      download_file fs filename = .forbidden) ∧
    (∀ (fs : FsView) (filename : String),
      (hasSubstr ['/'] filename.toList || hasSubstr ['\\'] filename.toList ||
        hasSubstr ['.', '.'] filename.toList) = false →
      fs.existsFile = true → fs.isFile = true → fs.resolvedInside = false →
      download_file fs filename = .forbidden) ∧
    (∀ (fs : FsView) (filename : String),
      (hasSubstr ['/'] filename.toList || hasSubstr ['\\'] filename.toList ||
        hasSubstr ['.', '.'] filename.toList) = false →
      fs.existsFile = true → fs.isFile = true → fs.resolvedInside = true →
      download_file fs filename =
        .fileResponse (GENERATED_DIR ++ "/" ++ filename) "application/pdf") ∧
    (∀ fs : FsView, download_file fs "../../etc/passwd" = .forbidden) := by
  refine ⟨?_, ?_, ?_, ?_⟩
  · intro fs fn h
    unfold download_file
    rw [if_pos h]
  · intro fs fn h he hi hr
    unfold download_file
    rw [if_neg (by simp_all), if_neg (not_not_intro ⟨he, hi⟩), if_pos hr]
  · intro fs fn h he hi hr
    unfold download_file
    rw [if_neg (by simp_all), if_neg (not_not_intro ⟨he, hi⟩),
      if_neg (by simp [hr])]
  · intro fs
    rfl

/-- Witness for C9: an existing clean file is served as PDF, and the
traversal name is forbidden, on a concrete filesystem view. -/
theorem download_file_safety_witness :
    download_file ⟨true, true, true⟩ "report.pdf" =
      .fileResponse "generated/report.pdf" "application/pdf" ∧
    download_file ⟨true, true, true⟩ "../../etc/passwd" = .forbidden :=
  ⟨download_file_safety.2.2.1 ⟨true, true, true⟩ "report.pdf" (by decide)
      rfl rfl rfl,
   download_file_safety.2.2.2 ⟨true, true, true⟩⟩

end WebClaims

section NormalizerLemmas

theorem reSubPairAux_id (h : Char) (op' cl : List Char) (allowed : Char → Bool)
    (fuel : Nat) (t : List Char) (ht : ∀ c ∈ t, c ≠ h) :
    reSubPairAux (h :: op') cl allowed fuel t = t := by
  induction fuel generalizing t with
  | zero => rfl
  | succ n ih =>
    cases t with
    | nil => rfl
    | cons c cs =>
      have hc : c ≠ h := ht c (List.mem_cons_self c cs)
      have hbe : (h == c) = false := beq_eq_false_iff_ne.mpr (Ne.symm hc)
      have hpre : (h :: op').isPrefixOf (c :: cs) = false := by
        show ((h == c) && op'.isPrefixOf cs) = false
        rw [hbe, Bool.false_and]
      simp only [reSubPairAux, hpre, Bool.false_eq_true, if_false]
      exact congrArg (c :: ·) (ih cs (fun x hx => ht x (List.mem_cons_of_mem c hx)))

theorem reSubLinkAux_id (fuel : Nat) (t : List Char)
    (ht : ∀ c ∈ t, c ≠ '[') : reSubLinkAux fuel t = t := by
  induction fuel generalizing t with
  | zero => rfl
  | succ n ih =>
    cases t with
    | nil => rfl
    | cons c cs =>
      simp only [reSubLinkAux, if_neg (ht c (List.mem_cons_self c cs))]
      exact congrArg (c :: ·) (ih cs (fun x hx => ht x (List.mem_cons_of_mem c hx)))

theorem anchorStartSubAux_id (marker : Char) (fuel : Nat) (b : Bool)
    (t : List Char) (ht : ∀ c ∈ t, c ≠ marker) :
    anchorStartSubAux marker fuel b t = t := by
  induction fuel generalizing b t with
  | zero => rfl
  | succ n ih =>
    cases t with
    | nil => rfl
    | cons c cs =>
      have hc : ¬(b = true ∧ c = marker) := fun hx =>
        ht c (List.mem_cons_self c cs) hx.2
      simp only [anchorStartSubAux, if_neg hc]
      exact congrArg (c :: ·) (ih _ cs (fun x hx => ht x (List.mem_cons_of_mem c hx)))

theorem tryTrailing_none (marker : Char) (t : List Char)
    (ht : ∀ c ∈ t, c ≠ marker) : tryTrailing marker t = none := by
  unfold tryTrailing
  cases hr : t.dropWhile isPySpace with
  | nil => rfl
  | cons m ms =>
    have hm : m ∈ t := by
      have h1 : m ∈ t.dropWhile isPySpace := by
        rw [hr]
        exact List.mem_cons_self m ms
      exact (List.dropWhile_sublist isPySpace).subset h1
    simp only [ht m hm, if_false]

theorem anchorEndSubAux_id (marker : Char) (fuel : Nat) (t : List Char)
    (ht : ∀ c ∈ t, c ≠ marker) : anchorEndSubAux marker fuel t = t := by
  induction fuel generalizing t with
  | zero => rfl
  | succ n ih =>
    cases t with
    | nil => rfl
    | cons c cs =>
      have hn := tryTrailing_none marker (c :: cs) ht
      simp only [anchorEndSubAux, hn]
      exact congrArg (c :: ·) (ih cs (fun x hx => ht x (List.mem_cons_of_mem c hx)))

theorem bulletSubAux_id (fuel : Nat) (b : Bool) (t : List Char)
    (hb : noBulletStartAux b t = true) : bulletSubAux fuel b t = t := by
  induction fuel generalizing b t with
  | zero => rfl
  | succ n ih =>
    cases t with
    | nil => rfl
    | cons c cs =>
      cases b with
      | false =>
        rw [noBulletStartAux, if_neg Bool.false_ne_true] at hb
        rw [bulletSubAux, if_neg Bool.false_ne_true]
        exact congrArg (c :: ·) (ih _ cs hb)
      | true =>
        cases htb : tryBullet (c :: cs) with
        | some r =>
          rw [noBulletStartAux, if_pos rfl, htb] at hb
          exact absurd hb (by simp)
        | none =>
          rw [noBulletStartAux, if_pos rfl, htb] at hb
          rw [bulletSubAux, if_pos rfl, htb]
          exact congrArg (c :: ·) (ih _ cs hb)

theorem clean_markdown_of_triggerFree (s : String)
    (h : cleanTriggerFree s.toList = true) : clean_markdown s = s := by
  obtain ⟨d⟩ := s
  have hd : (String.mk d).toList = d := rfl
  rw [cleanTriggerFree, hd, Bool.and_eq_true, List.all_eq_true] at h
  obtain ⟨hall, hbul⟩ := h
  have hchars : ∀ c ∈ d, c ≠ '*' ∧ c ≠ '_' ∧ c ≠ '~' ∧ c ≠ backquoteChar ∧ c ≠ '[' := by
    intro c hc
    have := hall c hc
    simp only [Bool.not_eq_true', Bool.or_eq_false_iff, decide_eq_false_iff_not] at this
    tauto
  have hstar : ∀ c ∈ d, c ≠ '*' := fun c hc => (hchars c hc).1
  have hund : ∀ c ∈ d, c ≠ '_' := fun c hc => (hchars c hc).2.1
  have htil : ∀ c ∈ d, c ≠ '~' := fun c hc => (hchars c hc).2.2.1
  have hbq : ∀ c ∈ d, c ≠ backquoteChar := fun c hc => (hchars c hc).2.2.2.1
  have hbra : ∀ c ∈ d, c ≠ '[' := fun c hc => (hchars c hc).2.2.2.2
  have e1 : reSubPair ['*', '*'] ['*', '*'] (fun _ => true) d = d := by
    rw [reSubPair]
    exact reSubPairAux_id '*' ['*'] ['*', '*'] _ _ d hstar
  have e2 : reSubPair ['_', '_'] ['_', '_'] (fun _ => true) d = d := by
    rw [reSubPair]
    exact reSubPairAux_id '_' ['_'] ['_', '_'] _ _ d hund
  have e3 : reSubPair ['*'] ['*'] (fun c => !(c = '*')) d = d := by
    rw [reSubPair]
    exact reSubPairAux_id '*' [] ['*'] _ _ d hstar
  have e4 : reSubPair ['_'] ['_'] (fun c => !(c = '_')) d = d := by
    rw [reSubPair]
    exact reSubPairAux_id '_' [] ['_'] _ _ d hund
  have e5 : reSubPair ['~', '~'] ['~', '~'] (fun _ => true) d = d := by
    rw [reSubPair]
    exact reSubPairAux_id '~' ['~'] ['~', '~'] _ _ d htil
  have e6 : reSubPair [backquoteChar, backquoteChar, backquoteChar]
      [backquoteChar, backquoteChar, backquoteChar] (fun _ => true) d = d := by
    rw [reSubPair]
    exact reSubPairAux_id backquoteChar [backquoteChar, backquoteChar]
      [backquoteChar, backquoteChar, backquoteChar] _ _ d hbq
  have e7 : reSubPair [backquoteChar] [backquoteChar] (fun c => !(c = '\n')) d = d := by
    rw [reSubPair]
    exact reSubPairAux_id backquoteChar [] [backquoteChar] _ _ d hbq
  have e8 : reSubLink d = d := by
    rw [reSubLink]
    exact reSubLinkAux_id _ d hbra
  have e9 : anchorStartSub '*' d = d := by
    rw [anchorStartSub]
    exact anchorStartSubAux_id '*' _ true d hstar
  have e10 : anchorEndSub '*' d = d := by
    rw [anchorEndSub]
    exact anchorEndSubAux_id '*' _ d hstar
  have e11 : anchorStartSub '_' d = d := by
    rw [anchorStartSub]
    exact anchorStartSubAux_id '_' _ true d hund
  have e12 : anchorEndSub '_' d = d := by
    rw [anchorEndSub]
    exact anchorEndSubAux_id '_' _ d hund
  have e13 : bulletSub d = d := by
    rw [bulletSub]
    exact bulletSubAux_id _ true d hbul
  show clean_markdown (String.mk d) = String.mk d
  rw [clean_markdown]
  simp only [hd, e1, e2, e3, e4, e5, e6, e7, e8, e9, e10, e11, e12, e13]

end NormalizerLemmas

section NormalizerClaims

/-- C8: the text normalizer is idempotent on its own output for inputs free
of nested markup. Freedom from nested markup is formalized through its
behavioural content: a text is free of nested markup exactly when one
normalizing pass strips all markup, i.e. the normalized text retains no
markup trigger (`cleanTriggerFree`). For every such input, applying
`clean_markdown` to the already-normalized text strips nothing further. -/
theorem clean_markdown_idempotent (s : String)
    (h : cleanTriggerFree (clean_markdown s).toList = true) :
    clean_markdown (clean_markdown s) = clean_markdown s :=
  clean_markdown_of_triggerFree (clean_markdown s) h

set_option maxRecDepth 40000 in
/-- Witness for C8 on a representative input exercising every markup form:
bold (both spellings), italics (both spellings), strikethrough, inline and
fenced code, a link, dangling line-edge emphasis markers and a bullet item. -/
theorem clean_markdown_idempotent_witness :
    clean_markdown (clean_markdown ("**Bold** and __also bold__, *italic* and _also italic_, ~~strike~~, `code`, ```fenced```, [link](http://example.com) text\n* leading star\ntrailing star *\n- bullet item\nплюс **жирный** текст")) =
      clean_markdown ("**Bold** and __also bold__, *italic* and _also italic_, ~~strike~~, `code`, ```fenced```, [link](http://example.com) text\n* leading star\ntrailing star *\n- bullet item\nплюс **жирный** текст") :=
  clean_markdown_idempotent _ (by decide)

end NormalizerClaims

end Channel2Pdf
